import Mathlib

/-!
Verification of the provisioning script `setup.py` of the
`did-credential-manager` repository.

The script is sequential orchestration: it checks that the external tools
`npm` and `yarn` resolve on the PATH, prompts the operator for two secrets,
runs `npm install` in four directories and `yarn install` in one, and then
writes `.env` files into three directories.

We embed the script shallowly.  The outside world (PATH lookups, subprocess
exit statuses, the two stdin lines, filesystem-write success) is a `World`.
Executing the script in a world produces a list of observable `Event`s (in
the order they occur) together with a terminal `Outcome`.

`Outcome.exitCode n` models `sys.exit(n)`.  `Outcome.fault` models an
uncaught Python exception: the interpreter prints a traceback diagnostic to
stderr and the process exits with the runtime's default non-zero status.
-/

/-- Result of one `subprocess.run([command, "install"], cwd=path, check=True)`
call: the process ran and exited 0 (`ok`), ran and exited non-zero — Python
raises `CalledProcessError` (`exitNonzero`) — or the call failed at the OS
level before/at spawn, e.g. a missing `cwd`, raising an `OSError`-family
exception (`osError`). -/
inductive InstallResult where
  | ok
  | exitNonzero
  | osError
deriving DecidableEq, Repr

/-- The environment the script runs in: which commands `shutil.which`
resolves, the result of each `(command, path)` install invocation, the two
lines served by `input()`, and whether `Path.write_text` succeeds at a
given file path. -/
structure World where
  pathHas : String → Bool
  installResult : String → String → InstallResult
  walletLine : String
  infuraLine : String
  writeOk : String → Bool

/-- Observable effects of the script, in order of occurrence. -/
inductive Event where
  | checkTool (name : String)
  | prompt (msg : String)
  | install (command path : String)
  | write (path contents : String)
  | print (msg : String)
deriving DecidableEq, Repr

/-- Terminal state of the process. -/
inductive Outcome where
  | success
  | exitCode (code : Nat)
  | fault
deriving DecidableEq, Repr

/-! ### Constants of the script (lines 8–25 of `setup.py`) -/

/-- Directories to run `npm install` (source line 8). -/
def NPM_DIRS : List String :=
  ["./demo/bank-app/frontend", "./demo/bank-app/backend",
   "./demo/dmv-app/frontend", "./demo/dmv-app/backend"]

/-- Directory to run `yarn install` (source line 16). -/
def YARN_DIR : String := "./snap"

/-- Directories that need a backend `.env` with the private key (line 19). -/
def ENV_DIRS_BACKEND : List String :=
  ["./demo/bank-app/backend", "./demo/dmv-app/backend"]

/-- Directory that needs the snap `.env` (source line 25). -/
def ENV_DIR_SNAP : String := "./snap/packages/snap"

/-! ### Messages printed by the script -/

def startMsg : String := "🚀 Project setup starting...\n"

def missingMsg (command : String) : String :=
  "❌ Error: `" ++ command ++ "` is not installed or not in PATH."

def runMsg (command path : String) : String :=
  "🔧 Running `" ++ command ++ " install` in " ++ path ++ "..."

def failMsg (command path : String) : String :=
  "❌ Error: `" ++ command ++ " install` failed in " ++ path ++ "."

def wroteMsg (path : String) : String :=
  "✅ Wrote .env file to " ++ path

def promptWallet : String := "🔑 Enter your Ethereum wallet private key: "

def promptInfura : String := "🔌 Enter your Infura testnet project ID: "

def completeMsg : String := "\n✅ Setup complete! You're ready to go."

/-! ### Python string primitives -/

/-- Characters removed by Python `str.strip()` with no argument
(ASCII whitespace; the script's inputs are line-oriented). -/
def isPySpace (c : Char) : Bool :=
  c = ' ' || c = '\t' || c = '\n' || c = '\r' || c = '\x0b' || c = '\x0c'

/-- Python `s.strip()`: remove leading and trailing whitespace. -/
def pystrip (s : String) : String :=
  String.mk (((s.toList.dropWhile isPySpace).reverse.dropWhile isPySpace).reverse)

/-- `Path(path) / ".env"` rendered as a path string. -/
def envPath (path : String) : String := path ++ "/.env"

/-! ### The script's functions -/

/-- `check_command_exists` (source lines 27–28):
`shutil.which(command) is not None`. -/
def check_command_exists (w : World) (command : String) : Bool :=
  w.pathHas command

/-- `run_install` (source lines 30–36).  Prints the progress line, invokes
the subprocess; on `CalledProcessError` prints the failure line and calls
`sys.exit(1)`; any other exception is not caught and propagates as a fault.
Returns the emitted events and `some outcome` when the process terminates
here, `none` when control continues. -/
def run_install (w : World) (command path : String) :
    List Event × Option Outcome :=
  match w.installResult command path with
  | .ok =>
      ([.print (runMsg command path), .install command path], none)
  | .exitNonzero =>
      ([.print (runMsg command path), .install command path,
        .print (failMsg command path)], some (.exitCode 1))
  | .osError =>
      ([.print (runMsg command path), .install command path], some .fault)

/-- The `for directory in NPM_DIRS: run_install(...)` loop (lines 64–65),
stopping at the first invocation that terminates the process. -/
def run_install_list (w : World) (command : String) :
    List String → List Event × Option Outcome
  | [] => ([], none)
  | path :: rest =>
      let step := run_install w command path
      match step.2 with
      | some out => (step.1, some out)
      | none =>
          let next := run_install_list w command rest
          (step.1 ++ next.1, next.2)

/-- The contents rendered by `write_env_file_backend` (source line 40):
the f-string interpolates both secrets verbatim, unescaped. -/
def backendEnvContents (wallet_key infura_id : String) : String :=
  "WALLET_PRIVATE_KEY=\"" ++ wallet_key ++ "\"\nINFURA_PROJECT_ID=\""
    ++ infura_id ++ "\"\n"

/-- The contents rendered by `write_env_file_snap` (source line 46). -/
def snapEnvContents (infura_id : String) : String :=
  "INFURA_PROJECT_ID=\"" ++ infura_id
    ++ "\"\nCOMPANION_APP_ORIGIN=\"http://localhost:8000\"\n"

/-- `write_env_file_backend` (source lines 38–42).  `write_text` fully
replaces the file; a write failure raises an uncaught exception, so the
confirmation print does not happen and the process faults. -/
def write_env_file_backend (w : World) (path wallet_key infura_id : String) :
    List Event × Option Outcome :=
  if w.writeOk (envPath path) then
    ([.write (envPath path) (backendEnvContents wallet_key infura_id),
      .print (wroteMsg path)], none)
  else
    ([], some .fault)

/-- `write_env_file_snap` (source lines 44–48). -/
def write_env_file_snap (w : World) (path infura_id : String) :
    List Event × Option Outcome :=
  if w.writeOk (envPath path) then
    ([.write (envPath path) (snapEnvContents infura_id),
      .print (wroteMsg path)], none)
  else
    ([], some .fault)

/-- The `for directory in ENV_DIRS_BACKEND: write_env_file_backend(...)`
loop (source lines 69–70). -/
def write_env_backend_list (w : World) (wallet_key infura_id : String) :
    List String → List Event × Option Outcome
  | [] => ([], none)
  | d :: rest =>
      let step := write_env_file_backend w d wallet_key infura_id
      match step.2 with
      | some out => (step.1, some out)
      | none =>
          let next := write_env_backend_list w wallet_key infura_id rest
          (step.1 ++ next.1, next.2)

/-- `main` (source lines 50–74): start banner, the two tool checks, the two
prompts (each input stripped), the five installs, the three `.env` writes,
and the final confirmation. -/
def mainRun (w : World) : List Event × Outcome :=
  let e0 : List Event := [.print startMsg, .checkTool "npm"]
  if !check_command_exists w "npm" then
    (e0 ++ [.print (missingMsg "npm")], .exitCode 1)
  else
    let e1 := e0 ++ [.checkTool "yarn"]
    if !check_command_exists w "yarn" then
      (e1 ++ [.print (missingMsg "yarn")], .exitCode 1)
    else
      let wallet_key := pystrip w.walletLine
      let infura_id := pystrip w.infuraLine
      let e2 := e1 ++ [.prompt promptWallet, .prompt promptInfura]
      let npmStep := run_install_list w "npm" NPM_DIRS
      match npmStep.2 with
      | some out => (e2 ++ npmStep.1, out)
      | none =>
        let yarnStep := run_install w "yarn" YARN_DIR
        match yarnStep.2 with
        | some out => (e2 ++ npmStep.1 ++ yarnStep.1, out)
        | none =>
          let wrStep := write_env_backend_list w wallet_key infura_id ENV_DIRS_BACKEND
          match wrStep.2 with
          | some out => (e2 ++ npmStep.1 ++ yarnStep.1 ++ wrStep.1, out)
          | none =>
            let snapStep := write_env_file_snap w ENV_DIR_SNAP infura_id
            match snapStep.2 with
            | some out =>
                (e2 ++ npmStep.1 ++ yarnStep.1 ++ wrStep.1 ++ snapStep.1, out)
            | none =>
                (e2 ++ npmStep.1 ++ yarnStep.1 ++ wrStep.1 ++ snapStep.1
                  ++ [.print completeMsg], .success)

/-! ### Trace observations -/

/-- The `(path, contents)` pairs of the write events of a trace, in order. -/
def writesOf (evs : List Event) : List (String × String) :=
  evs.filterMap fun e =>
    match e with
    | .write p c => some (p, c)
    | _ => none

/-- The prompt messages of a trace, in order. -/
def promptsOf (evs : List Event) : List String :=
  evs.filterMap fun e =>
    match e with
    | .prompt m => some m
    | _ => none

/-- The `(command, path)` pairs of the install invocations of a trace. -/
def installsOf (evs : List Event) : List (String × String) :=
  evs.filterMap fun e =>
    match e with
    | .install c p => some (c, p)
    | _ => none

/-- The tool names queried on the PATH during a trace. -/
def checksOf (evs : List Event) : List String :=
  evs.filterMap fun e =>
    match e with
    | .checkTool n => some n
    | _ => none

/-! ### Filesystem semantics of the write events -/

/-- One overwriting file write on a filesystem modelled as a partial map
from path to contents. -/
def fsWrite (fs : String → Option String) (q c : String) :
    String → Option String :=
  fun p => if p = q then some c else fs p

/-- Apply a list of `(path, contents)` writes, in order, each fully
overwriting the file at its path. -/
def fsApply (fs : String → Option String) (ws : List (String × String)) :
    String → Option String :=
  ws.foldl (fun f qc => fsWrite f qc.1 qc.2) fs

/-! ### Phase structure -/

/-- Phase of an event: tool checks (0) precede prompts (1) precede installs
(2) precede writes (3); prints belong to whatever phase they occur in and
carry no rank. -/
def phaseRank : Event → Option Nat
  | .checkTool _ => some 0
  | .prompt _ => some 1
  | .install _ _ => some 2
  | .write _ _ => some 3
  | .print _ => none

/-- The ranked phases of a trace, in order. -/
def phaseList (evs : List Event) : List Nat :=
  evs.filterMap phaseRank

/-- The phases of the trace occur in non-decreasing order. -/
def phasesOrdered (evs : List Event) : Prop :=
  List.Pairwise (· ≤ ·) (phaseList evs)

/-- The full ordered install plan of a run: the four npm directories in
list order, then the yarn directory (source lines 64–67). -/
def installPlan : List (String × String) :=
  NPM_DIRS.map (fun d => ("npm", d)) ++ [("yarn", YARN_DIR)]

/-- The three `.env` writes of a successful run, in order, with their
rendered contents (source lines 69–72). -/
def expectedWrites (wallet_key infura_id : String) : List (String × String) :=
  ENV_DIRS_BACKEND.map
      (fun d => (envPath d, backendEnvContents wallet_key infura_id))
    ++ [(envPath ENV_DIR_SNAP, snapEnvContents infura_id)]

/-- The three `.env` paths of a run, in write order. -/
def envPaths : List String :=
  ENV_DIRS_BACKEND.map envPath ++ [envPath ENV_DIR_SNAP]

/-- The diagnostic lines the script can print on a checked abort: the two
missing-tool errors and the per-invocation install-failure errors. -/
def diagnosticMsgs : List String :=
  [missingMsg "npm", missingMsg "yarn"]
    ++ installPlan.map fun cp => failMsg cp.1 cp.2

/-- A world where both tools resolve, every install succeeds, every write
succeeds, and the operator types a padded key and a project ID. -/
def okWorld : World where
  pathHas := fun _ => true
  installResult := fun _ _ => .ok
  walletLine := " 0xABC "
  infuraLine := "proj123"
  writeOk := fun _ => true

/-- A world where no tool resolves on the PATH. -/
def noToolWorld : World where
  pathHas := fun _ => false
  installResult := fun _ _ => .ok
  walletLine := "k"
  infuraLine := "i"
  writeOk := fun _ => true

/-- A world where the very first `npm install` exits non-zero. -/
def firstInstallFailWorld : World where
  pathHas := fun _ => true
  installResult := fun _ p =>
    if p = "./demo/bank-app/frontend" then .exitNonzero else .ok
  walletLine := "k"
  infuraLine := "i"
  writeOk := fun _ => true

/-- A world where every install invocation fails at the OS level (for
example the working directory does not exist). -/
def osErrorWorld : World where
  pathHas := fun _ => true
  installResult := fun _ _ => .osError
  walletLine := "k"
  infuraLine := "i"
  writeOk := fun _ => true

/-- A world where tools and installs succeed but every file write raises. -/
def writeFailWorld : World where
  pathHas := fun _ => true
  installResult := fun _ _ => .ok
  walletLine := "k"
  infuraLine := "i"
  writeOk := fun _ => false

/-! ### Helper lemmas about the filesystem semantics -/

lemma fsApply_not_mem (ws : List (String × String)) (fs : String → Option String)
    (p : String) (hp : p ∉ ws.map Prod.fst) : fsApply fs ws p = fs p := by
  induction ws generalizing fs with
  | nil => rfl
  | cons qc rest ih =>
    simp only [List.map_cons, List.mem_cons, not_or] at hp
    rw [fsApply, List.foldl_cons, ← fsApply, ih _ hp.2, fsWrite, if_neg hp.1]

lemma fsApply_of_mem (ws : List (String × String)) (fs : String → Option String)
    (p c : String) (hnd : (ws.map Prod.fst).Nodup) (hm : (p, c) ∈ ws) :
    fsApply fs ws p = some c := by
  induction ws generalizing fs with
  | nil => cases hm
  | cons qc rest ih =>
    obtain ⟨q, d⟩ := qc
    simp only [List.map_cons, List.nodup_cons] at hnd
    rcases List.mem_cons.1 hm with heq | hrest
    · cases heq
      show fsApply (fsWrite fs p c) rest p = some c
      rw [fsApply_not_mem _ _ _ hnd.1, fsWrite, if_pos rfl]
    · show fsApply (fsWrite fs q d) rest p = some c
      exact ih _ hnd.2 hrest

lemma fsApply_mem_indep (ws : List (String × String))
    (f g : String → Option String) (p : String)
    (hp : p ∈ ws.map Prod.fst) : fsApply f ws p = fsApply g ws p := by
  induction ws generalizing f g with
  | nil => cases hp
  | cons qc rest ih =>
    obtain ⟨q, d⟩ := qc
    by_cases hr : p ∈ rest.map Prod.fst
    · exact ih _ _ hr
    · have hq : p = q := by
        simp only [List.map_cons, List.mem_cons] at hp
        exact hp.resolve_right hr
      show fsApply (fsWrite f q d) rest p = fsApply (fsWrite g q d) rest p
      rw [fsApply_not_mem _ _ _ hr, fsApply_not_mem _ _ _ hr,
        fsWrite, fsWrite, if_pos hq, if_pos hq]

lemma fsApply_idem (ws : List (String × String))
    (f : String → Option String) (p : String) :
    fsApply (fsApply f ws) ws p = fsApply f ws p := by
  by_cases hp : p ∈ ws.map Prod.fst
  · exact fsApply_mem_indep ws _ _ p hp
  · rw [fsApply_not_mem _ _ _ hp]

/-! ### Helper lemmas about Python strip -/

lemma mem_takeWhile_sat {α : Type} (q : α → Bool) (l : List α) (x : α)
    (hx : x ∈ l.takeWhile q) : q x = true := by
  induction l with
  | nil => cases hx
  | cons a rest ih =>
    by_cases ha : q a = true
    · rw [List.takeWhile_cons_of_pos ha] at hx
      rcases List.mem_cons.1 hx with rfl | hx2
      · exact ha
      · exact ih hx2
    · rw [List.takeWhile_cons_of_neg (by simpa using ha)] at hx
      cases hx

lemma toList_pystrip (s : String) :
    (pystrip s).toList
      = ((s.toList.dropWhile isPySpace).reverse.dropWhile isPySpace).reverse := rfl

/-- Lemma: `pystrip` removes a (possibly empty) all-whitespace block from
each end of a string and keeps the middle verbatim. -/
lemma pystrip_trims (s : String) :
    ∃ pre post : List Char,
      s.toList = pre ++ (pystrip s).toList ++ post
      ∧ (∀ c ∈ pre, isPySpace c = true)
      ∧ (∀ c ∈ post, isPySpace c = true) := by
  refine ⟨s.toList.takeWhile isPySpace,
    ((s.toList.dropWhile isPySpace).reverse.takeWhile isPySpace).reverse,
    ?_, ?_, ?_⟩
  · have h1 := List.takeWhile_append_dropWhile (p := isPySpace) (l := s.toList)
    have h2 := List.takeWhile_append_dropWhile (p := isPySpace)
      (l := (s.toList.dropWhile isPySpace).reverse)
    have h3 : s.toList.dropWhile isPySpace
        = ((s.toList.dropWhile isPySpace).reverse.dropWhile isPySpace).reverse
          ++ ((s.toList.dropWhile isPySpace).reverse.takeWhile isPySpace).reverse := by
      conv_lhs => rw [← List.reverse_reverse (s.toList.dropWhile isPySpace), ← h2]
      rw [List.reverse_append]
    calc s.toList
        = s.toList.takeWhile isPySpace ++ s.toList.dropWhile isPySpace := h1.symm
      _ = s.toList.takeWhile isPySpace
            ++ (((s.toList.dropWhile isPySpace).reverse.dropWhile isPySpace).reverse
              ++ ((s.toList.dropWhile isPySpace).reverse.takeWhile isPySpace).reverse) := by
          rw [← h3]
      _ = s.toList.takeWhile isPySpace ++ (pystrip s).toList
            ++ ((s.toList.dropWhile isPySpace).reverse.takeWhile isPySpace).reverse := by
          rw [toList_pystrip, ← List.append_assoc]
  · exact fun c hc => mem_takeWhile_sat _ _ _ hc
  · intro c hc
    rw [List.mem_reverse] at hc
    exact mem_takeWhile_sat _ _ _ hc

/-! ### Helper lemmas about messages and traces -/

lemma failMsg_ne_runMsg (c p c' p' : String) : failMsg c p ≠ runMsg c' p' := by
  intro h
  have h2 := congrArg String.data h
  simp [failMsg, runMsg, String.data_append] at h2

lemma promptsOf_nil : promptsOf [] = [] := rfl

lemma promptsOf_print (m : String) (evs : List Event) :
    promptsOf (.print m :: evs) = promptsOf evs := rfl

lemma promptsOf_checkTool (n : String) (evs : List Event) :
    promptsOf (.checkTool n :: evs) = promptsOf evs := rfl

lemma promptsOf_install (c p : String) (evs : List Event) :
    promptsOf (.install c p :: evs) = promptsOf evs := rfl

lemma promptsOf_write (p c : String) (evs : List Event) :
    promptsOf (.write p c :: evs) = promptsOf evs := rfl

lemma promptsOf_prompt (m : String) (evs : List Event) :
    promptsOf (.prompt m :: evs) = m :: promptsOf evs := rfl

lemma promptsOf_append (a b : List Event) :
    promptsOf (a ++ b) = promptsOf a ++ promptsOf b := by
  simp [promptsOf]

lemma promptsOf_run_install (w : World) (c p : String) :
    promptsOf (run_install w c p).1 = [] := by
  cases h : w.installResult c p <;> simp [run_install, h, promptsOf]

lemma promptsOf_run_install_list (w : World) (c : String) (ds : List String) :
    promptsOf (run_install_list w c ds).1 = [] := by
  induction ds with
  | nil => rfl
  | cons d rest ih =>
    cases h2 : (run_install w c d).2 <;>
      simp [run_install_list, h2, promptsOf_append, promptsOf_run_install, ih]

lemma promptsOf_write_env_file_backend (w : World) (d wk iid : String) :
    promptsOf (write_env_file_backend w d wk iid).1 = [] := by
  by_cases h : w.writeOk (envPath d) = true <;>
    simp [write_env_file_backend, h, promptsOf]

lemma promptsOf_write_list (w : World) (wk iid : String) (ds : List String) :
    promptsOf (write_env_backend_list w wk iid ds).1 = [] := by
  induction ds with
  | nil => rfl
  | cons d rest ih =>
    cases h2 : (write_env_file_backend w d wk iid).2 <;>
      simp [write_env_backend_list, h2, promptsOf_append,
        promptsOf_write_env_file_backend, ih]

lemma promptsOf_write_snap (w : World) (d iid : String) :
    promptsOf (write_env_file_snap w d iid).1 = [] := by
  by_cases h : w.writeOk (envPath d) = true <;>
    simp [write_env_file_snap, h, promptsOf]

/-- Lemma: in any world where both tools resolve, every install succeeds
and every write succeeds, the run performs exactly the three planned `.env`
writes with the stripped secrets interpolated. -/
lemma mainRun_success_writes (w : World)
    (hn : w.pathHas "npm" = true) (hy : w.pathHas "yarn" = true)
    (hinst : ∀ c p, w.installResult c p = .ok)
    (hwr : ∀ p, w.writeOk p = true) :
    writesOf (mainRun w).1
      = expectedWrites (pystrip w.walletLine) (pystrip w.infuraLine) := by
  simp [mainRun, check_command_exists, run_install_list, run_install,
    write_env_backend_list, write_env_file_backend, write_env_file_snap,
    NPM_DIRS, YARN_DIR, ENV_DIRS_BACKEND, ENV_DIR_SNAP, envPath,
    writesOf, expectedWrites, hn, hy, hinst, hwr]

/-! ### Claim theorems -/

/-- C1: with both tools present and all installs and writes succeeding, for
every pair of non-empty stripped secrets, each backend directory's `.env`
afterwards holds exactly the two lines with the secrets substituted
verbatim, and the snap directory's `.env` holds exactly the Infura line and
the fixed companion-origin line — whatever the prior filesystem held. -/
theorem success_env_files_exact (w : World) (fs0 : String → Option String)
    (hn : w.pathHas "npm" = true) (hy : w.pathHas "yarn" = true)
    (hinst : ∀ c p, w.installResult c p = .ok)
    (hwr : ∀ p, w.writeOk p = true)
    (hwk : pystrip w.walletLine ≠ "") (hid : pystrip w.infuraLine ≠ "") :
    (∀ d ∈ ENV_DIRS_BACKEND,
        fsApply fs0 (writesOf (mainRun w).1) (envPath d)
          = some (backendEnvContents (pystrip w.walletLine)
              (pystrip w.infuraLine)))
    ∧ fsApply fs0 (writesOf (mainRun w).1) (envPath ENV_DIR_SNAP)
        = some (snapEnvContents (pystrip w.infuraLine)) := by
  rw [mainRun_success_writes w hn hy hinst hwr]
  constructor
  · intro d hd
    fin_cases hd <;>
      simp [fsApply, fsWrite, expectedWrites, envPath, ENV_DIRS_BACKEND,
        ENV_DIR_SNAP]
  · simp [fsApply, fsWrite, expectedWrites, envPath, ENV_DIRS_BACKEND,
      ENV_DIR_SNAP]

/-- Witness for C1 in a concrete world. -/
theorem success_env_files_exact_witness :
    fsApply (fun _ => none) (writesOf (mainRun okWorld).1)
        (envPath "./demo/bank-app/backend")
      = some (backendEnvContents (pystrip okWorld.walletLine)
          (pystrip okWorld.infuraLine)) := by
  have h := success_env_files_exact okWorld (fun _ => none) rfl rfl
    (fun _ _ => rfl) (fun _ => rfl) (by decide) (by decide)
  exact h.1 "./demo/bank-app/backend" (by simp [ENV_DIRS_BACKEND])

/-- C2: whenever either tool is absent from the PATH, the run exits with
status 1 after printing an error naming a missing tool, and the trace holds
no prompt, no install invocation and no file write. -/
theorem missing_tool_exits_before_work (w : World)
    (h : w.pathHas "npm" = false ∨ w.pathHas "yarn" = false) :
    (mainRun w).2 = .exitCode 1
    ∧ (∃ t, w.pathHas t = false ∧ .print (missingMsg t) ∈ (mainRun w).1)
    ∧ promptsOf (mainRun w).1 = []
    ∧ installsOf (mainRun w).1 = []
    ∧ writesOf (mainRun w).1 = [] := by
  cases hn : w.pathHas "npm" with
  | false =>
    refine ⟨?_, ⟨"npm", hn, ?_⟩, ?_, ?_, ?_⟩ <;>
      simp [mainRun, check_command_exists, hn, promptsOf, installsOf,
        writesOf]
  | true =>
    cases hy : w.pathHas "yarn" with
    | false =>
      refine ⟨?_, ⟨"yarn", hy, ?_⟩, ?_, ?_, ?_⟩ <;>
        simp [mainRun, check_command_exists, hn, hy, promptsOf, installsOf,
          writesOf]
    | true =>
      rw [hn, hy] at h
      rcases h with h | h <;> cases h

/-- Witness for C2 in a concrete world with no tools on the PATH. -/
theorem missing_tool_exits_before_work_witness :
    (mainRun noToolWorld).2 = .exitCode 1
    ∧ writesOf (mainRun noToolWorld).1 = [] := by
  have h := missing_tool_exits_before_work noToolWorld (Or.inl rfl)
  exact ⟨h.1, h.2.2.2.2⟩

/-- C3: if the installs before position `j` of the ordered plan succeed and
the one at `j` exits non-zero, the run prints the message naming that
command and directory, exits with status 1, runs no install beyond `j`, and
writes no `.env` file at all. -/
theorem install_failure_aborts_no_writes (w : World)
    (j : Fin installPlan.length)
    (hn : w.pathHas "npm" = true) (hy : w.pathHas "yarn" = true)
    (hpre : ∀ m : Fin installPlan.length, m < j →
        w.installResult (installPlan.get m).1 (installPlan.get m).2 = .ok)
    (hj : w.installResult (installPlan.get j).1 (installPlan.get j).2
        = .exitNonzero) :
    (mainRun w).2 = .exitCode 1
    ∧ .print (failMsg (installPlan.get j).1 (installPlan.get j).2)
        ∈ (mainRun w).1
    ∧ installsOf (mainRun w).1 = installPlan.take (j.1 + 1)
    ∧ writesOf (mainRun w).1 = [] := by
  fin_cases j
  · simp only [installPlan, NPM_DIRS, YARN_DIR, List.map, List.get,
      List.cons_append, List.nil_append] at hj ⊢
    refine ⟨?_, ?_, ?_, ?_⟩ <;>
      simp [mainRun, check_command_exists, run_install_list, run_install,
        installsOf, writesOf, NPM_DIRS, YARN_DIR, hn, hy, hj]
  · have h1 := hpre ⟨0, by decide⟩ (by decide)
    simp only [installPlan, NPM_DIRS, YARN_DIR, List.map, List.get,
      List.cons_append, List.nil_append] at h1 hj ⊢
    refine ⟨?_, ?_, ?_, ?_⟩ <;>
      simp [mainRun, check_command_exists, run_install_list, run_install,
        installsOf, writesOf, NPM_DIRS, YARN_DIR, hn, hy, h1, hj]
  · have h1 := hpre ⟨0, by decide⟩ (by decide)
    have h2 := hpre ⟨1, by decide⟩ (by decide)
    simp only [installPlan, NPM_DIRS, YARN_DIR, List.map, List.get,
      List.cons_append, List.nil_append] at h1 h2 hj ⊢
    refine ⟨?_, ?_, ?_, ?_⟩ <;>
      simp [mainRun, check_command_exists, run_install_list, run_install,
        installsOf, writesOf, NPM_DIRS, YARN_DIR, hn, hy, h1, h2, hj]
  · have h1 := hpre ⟨0, by decide⟩ (by decide)
    have h2 := hpre ⟨1, by decide⟩ (by decide)
    have h3 := hpre ⟨2, by decide⟩ (by decide)
    simp only [installPlan, NPM_DIRS, YARN_DIR, List.map, List.get,
      List.cons_append, List.nil_append] at h1 h2 h3 hj ⊢
    refine ⟨?_, ?_, ?_, ?_⟩ <;>
      simp [mainRun, check_command_exists, run_install_list, run_install,
        installsOf, writesOf, NPM_DIRS, YARN_DIR, hn, hy, h1, h2, h3, hj]
  · have h1 := hpre ⟨0, by decide⟩ (by decide)
    have h2 := hpre ⟨1, by decide⟩ (by decide)
    have h3 := hpre ⟨2, by decide⟩ (by decide)
    have h4 := hpre ⟨3, by decide⟩ (by decide)
    simp only [installPlan, NPM_DIRS, YARN_DIR, List.map, List.get,
      List.cons_append, List.nil_append] at h1 h2 h3 h4 hj ⊢
    refine ⟨?_, ?_, ?_, ?_⟩ <;>
      simp [mainRun, check_command_exists, run_install_list, run_install,
        installsOf, writesOf, NPM_DIRS, YARN_DIR, hn, hy, h1, h2, h3, h4, hj]

/-- Witness for C3: the very first `npm install` exits non-zero. -/
theorem install_failure_aborts_no_writes_witness :
    (mainRun firstInstallFailWorld).2 = .exitCode 1
    ∧ writesOf (mainRun firstInstallFailWorld).1 = [] := by
  have h := install_failure_aborts_no_writes firstInstallFailWorld
    ⟨0, by decide⟩ rfl rfl
    (fun m hm => absurd hm (by exact Nat.not_lt_zero m.1))
    (by decide)
  exact ⟨h.1, h.2.2.2⟩

/-- C4: on every run the phases occur in the fixed order tool-check,
secret-collection, installs, file-writes; the confirmation message is
printed exactly on full success with exit status zero, and every other
terminal state is a checked abort (exit status 1 with a diagnostic
printed) or an uncaught fault (runtime diagnostic, non-zero status). -/
theorem linear_phases_and_terminal_states (w : World) :
    phasesOrdered (mainRun w).1
    ∧ ((mainRun w).2 = .success ↔ .print completeMsg ∈ (mainRun w).1)
    ∧ ((mainRun w).2 = .success
       ∨ ((mainRun w).2 = .exitCode 1
          ∧ ∃ m, m ∈ diagnosticMsgs ∧ .print m ∈ (mainRun w).1)
       ∨ (mainRun w).2 = .fault) := by
  cases hn : w.pathHas "npm" with
  | false =>
    refine ⟨?_, ?_, ?_⟩ <;>
      simp [mainRun, check_command_exists, run_install_list, run_install,
        write_env_backend_list, write_env_file_backend, write_env_file_snap,
        NPM_DIRS, YARN_DIR, ENV_DIRS_BACKEND, ENV_DIR_SNAP, envPath,
        phasesOrdered, phaseList, phaseRank, diagnosticMsgs, installPlan,
        startMsg, completeMsg, missingMsg, failMsg, runMsg, wroteMsg,
        promptWallet, promptInfura, *]
  | true =>
    cases hy : w.pathHas "yarn" with
    | false =>
      refine ⟨?_, ?_, ?_⟩ <;>
        simp [mainRun, check_command_exists, run_install_list, run_install,
          write_env_backend_list, write_env_file_backend, write_env_file_snap,
          NPM_DIRS, YARN_DIR, ENV_DIRS_BACKEND, ENV_DIR_SNAP, envPath,
          phasesOrdered, phaseList, phaseRank, diagnosticMsgs, installPlan,
          startMsg, completeMsg, missingMsg, failMsg, runMsg, wroteMsg,
          promptWallet, promptInfura, *]
    | true =>
      cases h1 : w.installResult "npm" "./demo/bank-app/frontend" with
      | exitNonzero =>
        refine ⟨?_, ?_, ?_⟩ <;>
          simp [mainRun, check_command_exists, run_install_list, run_install,
            write_env_backend_list, write_env_file_backend, write_env_file_snap,
            NPM_DIRS, YARN_DIR, ENV_DIRS_BACKEND, ENV_DIR_SNAP, envPath,
            phasesOrdered, phaseList, phaseRank, diagnosticMsgs, installPlan,
            startMsg, completeMsg, missingMsg, failMsg, runMsg, wroteMsg,
            promptWallet, promptInfura, *]
      | osError =>
        refine ⟨?_, ?_, ?_⟩ <;>
          simp [mainRun, check_command_exists, run_install_list, run_install,
            write_env_backend_list, write_env_file_backend, write_env_file_snap,
            NPM_DIRS, YARN_DIR, ENV_DIRS_BACKEND, ENV_DIR_SNAP, envPath,
            phasesOrdered, phaseList, phaseRank, diagnosticMsgs, installPlan,
            startMsg, completeMsg, missingMsg, failMsg, runMsg, wroteMsg,
            promptWallet, promptInfura, *]
      | ok =>
        cases h2 : w.installResult "npm" "./demo/bank-app/backend" with
        | exitNonzero =>
          refine ⟨?_, ?_, ?_⟩ <;>
            simp [mainRun, check_command_exists, run_install_list, run_install,
              write_env_backend_list, write_env_file_backend, write_env_file_snap,
              NPM_DIRS, YARN_DIR, ENV_DIRS_BACKEND, ENV_DIR_SNAP, envPath,
              phasesOrdered, phaseList, phaseRank, diagnosticMsgs, installPlan,
              startMsg, completeMsg, missingMsg, failMsg, runMsg, wroteMsg,
              promptWallet, promptInfura, *]
        | osError =>
          refine ⟨?_, ?_, ?_⟩ <;>
            simp [mainRun, check_command_exists, run_install_list, run_install,
              write_env_backend_list, write_env_file_backend, write_env_file_snap,
              NPM_DIRS, YARN_DIR, ENV_DIRS_BACKEND, ENV_DIR_SNAP, envPath,
              phasesOrdered, phaseList, phaseRank, diagnosticMsgs, installPlan,
              startMsg, completeMsg, missingMsg, failMsg, runMsg, wroteMsg,
              promptWallet, promptInfura, *]
        | ok =>
          cases h3 : w.installResult "npm" "./demo/dmv-app/frontend" with
          | exitNonzero =>
            refine ⟨?_, ?_, ?_⟩ <;>
              simp [mainRun, check_command_exists, run_install_list, run_install,
                write_env_backend_list, write_env_file_backend, write_env_file_snap,
                NPM_DIRS, YARN_DIR, ENV_DIRS_BACKEND, ENV_DIR_SNAP, envPath,
                phasesOrdered, phaseList, phaseRank, diagnosticMsgs, installPlan,
                startMsg, completeMsg, missingMsg, failMsg, runMsg, wroteMsg,
                promptWallet, promptInfura, *]
          | osError =>
            refine ⟨?_, ?_, ?_⟩ <;>
              simp [mainRun, check_command_exists, run_install_list, run_install,
                write_env_backend_list, write_env_file_backend, write_env_file_snap,
                NPM_DIRS, YARN_DIR, ENV_DIRS_BACKEND, ENV_DIR_SNAP, envPath,
                phasesOrdered, phaseList, phaseRank, diagnosticMsgs, installPlan,
                startMsg, completeMsg, missingMsg, failMsg, runMsg, wroteMsg,
                promptWallet, promptInfura, *]
          | ok =>
            cases h4 : w.installResult "npm" "./demo/dmv-app/backend" with
            | exitNonzero =>
              refine ⟨?_, ?_, ?_⟩ <;>
                simp [mainRun, check_command_exists, run_install_list, run_install,
                  write_env_backend_list, write_env_file_backend, write_env_file_snap,
                  NPM_DIRS, YARN_DIR, ENV_DIRS_BACKEND, ENV_DIR_SNAP, envPath,
                  phasesOrdered, phaseList, phaseRank, diagnosticMsgs, installPlan,
                  startMsg, completeMsg, missingMsg, failMsg, runMsg, wroteMsg,
                  promptWallet, promptInfura, *]
            | osError =>
              refine ⟨?_, ?_, ?_⟩ <;>
                simp [mainRun, check_command_exists, run_install_list, run_install,
                  write_env_backend_list, write_env_file_backend, write_env_file_snap,
                  NPM_DIRS, YARN_DIR, ENV_DIRS_BACKEND, ENV_DIR_SNAP, envPath,
                  phasesOrdered, phaseList, phaseRank, diagnosticMsgs, installPlan,
                  startMsg, completeMsg, missingMsg, failMsg, runMsg, wroteMsg,
                  promptWallet, promptInfura, *]
            | ok =>
              cases h5 : w.installResult "yarn" "./snap" with
              | exitNonzero =>
                refine ⟨?_, ?_, ?_⟩ <;>
                  simp [mainRun, check_command_exists, run_install_list, run_install,
                    write_env_backend_list, write_env_file_backend, write_env_file_snap,
                    NPM_DIRS, YARN_DIR, ENV_DIRS_BACKEND, ENV_DIR_SNAP, envPath,
                    phasesOrdered, phaseList, phaseRank, diagnosticMsgs, installPlan,
                    startMsg, completeMsg, missingMsg, failMsg, runMsg, wroteMsg,
                    promptWallet, promptInfura, *]
              | osError =>
                refine ⟨?_, ?_, ?_⟩ <;>
                  simp [mainRun, check_command_exists, run_install_list, run_install,
                    write_env_backend_list, write_env_file_backend, write_env_file_snap,
                    NPM_DIRS, YARN_DIR, ENV_DIRS_BACKEND, ENV_DIR_SNAP, envPath,
                    phasesOrdered, phaseList, phaseRank, diagnosticMsgs, installPlan,
                    startMsg, completeMsg, missingMsg, failMsg, runMsg, wroteMsg,
                    promptWallet, promptInfura, *]
              | ok =>
                cases hw1 : w.writeOk "./demo/bank-app/backend/.env" with
                | false =>
                  refine ⟨?_, ?_, ?_⟩ <;>
                    simp [mainRun, check_command_exists, run_install_list, run_install,
                      write_env_backend_list, write_env_file_backend, write_env_file_snap,
                      NPM_DIRS, YARN_DIR, ENV_DIRS_BACKEND, ENV_DIR_SNAP, envPath,
                      phasesOrdered, phaseList, phaseRank, diagnosticMsgs, installPlan,
                      startMsg, completeMsg, missingMsg, failMsg, runMsg, wroteMsg,
                      promptWallet, promptInfura, *]
                | true =>
                  cases hw2 : w.writeOk "./demo/dmv-app/backend/.env" with
                  | false =>
                    refine ⟨?_, ?_, ?_⟩ <;>
                      simp [mainRun, check_command_exists, run_install_list, run_install,
                        write_env_backend_list, write_env_file_backend, write_env_file_snap,
                        NPM_DIRS, YARN_DIR, ENV_DIRS_BACKEND, ENV_DIR_SNAP, envPath,
                        phasesOrdered, phaseList, phaseRank, diagnosticMsgs, installPlan,
                        startMsg, completeMsg, missingMsg, failMsg, runMsg, wroteMsg,
                        promptWallet, promptInfura, *]
                  | true =>
                    cases hw3 : w.writeOk "./snap/packages/snap/.env" with
                    | false =>
                      refine ⟨?_, ?_, ?_⟩ <;>
                        simp [mainRun, check_command_exists, run_install_list, run_install,
                          write_env_backend_list, write_env_file_backend, write_env_file_snap,
                          NPM_DIRS, YARN_DIR, ENV_DIRS_BACKEND, ENV_DIR_SNAP, envPath,
                          phasesOrdered, phaseList, phaseRank, diagnosticMsgs, installPlan,
                          startMsg, completeMsg, missingMsg, failMsg, runMsg, wroteMsg,
                          promptWallet, promptInfura, *]
                    | true =>
                      refine ⟨?_, ?_, ?_⟩ <;>
                        simp [mainRun, check_command_exists, run_install_list, run_install,
                          write_env_backend_list, write_env_file_backend, write_env_file_snap,
                          NPM_DIRS, YARN_DIR, ENV_DIRS_BACKEND, ENV_DIR_SNAP, envPath,
                          phasesOrdered, phaseList, phaseRank, diagnosticMsgs, installPlan,
                          startMsg, completeMsg, missingMsg, failMsg, runMsg, wroteMsg,
                          promptWallet, promptInfura, *]

/-- C5: with tools present and all installs and writes succeeding, the
run's writes fully overwrite: the resulting `.env` contents are the same
whatever the prior filesystem held (no merging), and replaying the same
run's writes on top of its own result changes nothing, so a second
identical run yields identical file contents. -/
theorem rerun_overwrites_identically (w : World)
    (hn : w.pathHas "npm" = true) (hy : w.pathHas "yarn" = true)
    (hinst : ∀ c p, w.installResult c p = .ok)
    (hwr : ∀ p, w.writeOk p = true) :
    ∀ fs0 fs1 : String → Option String,
      (∀ p ∈ envPaths,
        fsApply fs0 (writesOf (mainRun w).1) p
          = fsApply fs1 (writesOf (mainRun w).1) p)
      ∧ (∀ p, fsApply (fsApply fs0 (writesOf (mainRun w).1))
            (writesOf (mainRun w).1) p
          = fsApply fs0 (writesOf (mainRun w).1) p) := by
  intro fs0 fs1
  rw [mainRun_success_writes w hn hy hinst hwr]
  refine ⟨?_, fun p => fsApply_idem _ _ _⟩
  intro p hp
  refine fsApply_mem_indep _ _ _ _ ?_
  fin_cases hp <;>
    simp [expectedWrites, envPath, ENV_DIRS_BACKEND, ENV_DIR_SNAP]

/-- Witness for C5 in a concrete world. -/
theorem rerun_overwrites_identically_witness :
    fsApply (fsApply (fun _ => none) (writesOf (mainRun okWorld).1))
        (writesOf (mainRun okWorld).1) (envPath ENV_DIR_SNAP)
      = fsApply (fun _ => none) (writesOf (mainRun okWorld).1)
          (envPath ENV_DIR_SNAP) := by
  have h := rerun_overwrites_identically okWorld rfl rfl
    (fun _ _ => rfl) (fun _ => rfl) (fun _ => none) (fun _ => some "stale")
  exact h.2 (envPath ENV_DIR_SNAP)

/-- C6: when both tools resolve, the script prompts exactly twice, in
order, with the wallet prompt then the Infura prompt; each collected
secret is the entered line with surrounding whitespace removed; and no
validation is applied — for every pair of entered lines, including empty
results, a run whose installs and writes succeed writes exactly the
stripped secrets verbatim. -/
theorem two_prompts_trimmed_unvalidated (w : World)
    (hn : w.pathHas "npm" = true) (hy : w.pathHas "yarn" = true) :
    promptsOf (mainRun w).1 = [promptWallet, promptInfura]
    ∧ (∃ pre post : List Char,
        w.walletLine.toList = pre ++ (pystrip w.walletLine).toList ++ post
        ∧ (∀ c ∈ pre, isPySpace c = true)
        ∧ (∀ c ∈ post, isPySpace c = true))
    ∧ (∃ pre post : List Char,
        w.infuraLine.toList = pre ++ (pystrip w.infuraLine).toList ++ post
        ∧ (∀ c ∈ pre, isPySpace c = true)
        ∧ (∀ c ∈ post, isPySpace c = true))
    ∧ ((∀ c p, w.installResult c p = .ok) → (∀ p, w.writeOk p = true) →
        writesOf (mainRun w).1
          = expectedWrites (pystrip w.walletLine) (pystrip w.infuraLine)) := by
  refine ⟨?_, pystrip_trims w.walletLine, pystrip_trims w.infuraLine,
    fun hinst hwr => mainRun_success_writes w hn hy hinst hwr⟩
  cases hA : (run_install_list w "npm" NPM_DIRS).2 <;>
    cases hB : (run_install w "yarn" YARN_DIR).2 <;>
      cases hC : (write_env_backend_list w (pystrip w.walletLine)
          (pystrip w.infuraLine) ENV_DIRS_BACKEND).2 <;>
        cases hD : (write_env_file_snap w ENV_DIR_SNAP
            (pystrip w.infuraLine)).2 <;>
          simp [mainRun, check_command_exists, hn, hy, hA, hB, hC, hD,
            promptsOf_append, promptsOf_print, promptsOf_checkTool,
            promptsOf_prompt, promptsOf_nil, promptsOf_run_install_list,
            promptsOf_run_install, promptsOf_write_list,
            promptsOf_write_snap]

/-- Witness for C6 in a concrete world. -/
theorem two_prompts_trimmed_unvalidated_witness :
    promptsOf (mainRun okWorld).1 = [promptWallet, promptInfura] :=
  (two_prompts_trimmed_unvalidated okWorld rfl rfl).1

/-- C7: with tools present and all installs succeeding, if the `.env` write
at position `k` of the write sequence raises while the earlier ones
succeed, the process terminates as an uncaught fault — no checked-error
diagnostic is printed, no write beyond `k` happens, and the files already
written keep their freshly rendered contents (no cleanup). -/
theorem env_write_failure_uncaught (w : World) (k : Fin envPaths.length)
    (hn : w.pathHas "npm" = true) (hy : w.pathHas "yarn" = true)
    (hinst : ∀ c p, w.installResult c p = .ok)
    (hpre : ∀ m : Fin envPaths.length, m < k →
        w.writeOk (envPaths.get m) = true)
    (hk : w.writeOk (envPaths.get k) = false) :
    (mainRun w).2 = .fault
    ∧ (∀ m ∈ diagnosticMsgs, .print m ∉ (mainRun w).1)
    ∧ writesOf (mainRun w).1
        = (expectedWrites (pystrip w.walletLine)
            (pystrip w.infuraLine)).take k.1
    ∧ (∀ fs0 p c, (p, c) ∈ writesOf (mainRun w).1 →
        fsApply fs0 (writesOf (mainRun w).1) p = some c) := by
  fin_cases k
  · simp only [envPaths, ENV_DIRS_BACKEND, ENV_DIR_SNAP, envPath, List.map,
      List.get, List.cons_append, List.nil_append, String.reduceAppend] at hk
    have hws : writesOf (mainRun w).1
        = (expectedWrites (pystrip w.walletLine)
            (pystrip w.infuraLine)).take 0 := by
      simp [mainRun, check_command_exists, run_install_list, run_install,
        write_env_backend_list, write_env_file_backend, write_env_file_snap,
        NPM_DIRS, YARN_DIR, ENV_DIRS_BACKEND, ENV_DIR_SNAP, envPath,
        writesOf, expectedWrites, hn, hy, hinst, hk]
    refine ⟨?_, ?_, hws, ?_⟩
    · simp [mainRun, check_command_exists, run_install_list, run_install,
        write_env_backend_list, write_env_file_backend, write_env_file_snap,
        NPM_DIRS, YARN_DIR, ENV_DIRS_BACKEND, ENV_DIR_SNAP, envPath,
        hn, hy, hinst, hk]
    · simp [mainRun, check_command_exists, run_install_list, run_install,
        write_env_backend_list, write_env_file_backend, write_env_file_snap,
        NPM_DIRS, YARN_DIR, ENV_DIRS_BACKEND, ENV_DIR_SNAP, envPath,
        diagnosticMsgs, installPlan, missingMsg, failMsg, runMsg, wroteMsg,
        startMsg, completeMsg, hn, hy, hinst, hk]
    · rw [hws]
      intro fs0 p c hm
      exact fsApply_of_mem _ _ _ _ (by simp) hm
  · have g1 := hpre ⟨0, by decide⟩ (by decide)
    simp only [envPaths, ENV_DIRS_BACKEND, ENV_DIR_SNAP, envPath, List.map,
      List.get, List.cons_append, List.nil_append,
      String.reduceAppend] at g1 hk
    have hws : writesOf (mainRun w).1
        = (expectedWrites (pystrip w.walletLine)
            (pystrip w.infuraLine)).take 1 := by
      simp [mainRun, check_command_exists, run_install_list, run_install,
        write_env_backend_list, write_env_file_backend, write_env_file_snap,
        NPM_DIRS, YARN_DIR, ENV_DIRS_BACKEND, ENV_DIR_SNAP, envPath,
        writesOf, expectedWrites, hn, hy, hinst, g1, hk]
    refine ⟨?_, ?_, hws, ?_⟩
    · simp [mainRun, check_command_exists, run_install_list, run_install,
        write_env_backend_list, write_env_file_backend, write_env_file_snap,
        NPM_DIRS, YARN_DIR, ENV_DIRS_BACKEND, ENV_DIR_SNAP, envPath,
        hn, hy, hinst, g1, hk]
    · simp [mainRun, check_command_exists, run_install_list, run_install,
        write_env_backend_list, write_env_file_backend, write_env_file_snap,
        NPM_DIRS, YARN_DIR, ENV_DIRS_BACKEND, ENV_DIR_SNAP, envPath,
        diagnosticMsgs, installPlan, missingMsg, failMsg, runMsg, wroteMsg,
        startMsg, completeMsg, hn, hy, hinst, g1, hk]
    · rw [hws]
      intro fs0 p c hm
      refine fsApply_of_mem _ _ _ _ ?_ hm
      simp [expectedWrites, envPath, ENV_DIRS_BACKEND, ENV_DIR_SNAP]
  · have g1 := hpre ⟨0, by decide⟩ (by decide)
    have g2 := hpre ⟨1, by decide⟩ (by decide)
    simp only [envPaths, ENV_DIRS_BACKEND, ENV_DIR_SNAP, envPath, List.map,
      List.get, List.cons_append, List.nil_append,
      String.reduceAppend] at g1 g2 hk
    have hws : writesOf (mainRun w).1
        = (expectedWrites (pystrip w.walletLine)
            (pystrip w.infuraLine)).take 2 := by
      simp [mainRun, check_command_exists, run_install_list, run_install,
        write_env_backend_list, write_env_file_backend, write_env_file_snap,
        NPM_DIRS, YARN_DIR, ENV_DIRS_BACKEND, ENV_DIR_SNAP, envPath,
        writesOf, expectedWrites, hn, hy, hinst, g1, g2, hk]
    refine ⟨?_, ?_, hws, ?_⟩
    · simp [mainRun, check_command_exists, run_install_list, run_install,
        write_env_backend_list, write_env_file_backend, write_env_file_snap,
        NPM_DIRS, YARN_DIR, ENV_DIRS_BACKEND, ENV_DIR_SNAP, envPath,
        hn, hy, hinst, g1, g2, hk]
    · simp [mainRun, check_command_exists, run_install_list, run_install,
        write_env_backend_list, write_env_file_backend, write_env_file_snap,
        NPM_DIRS, YARN_DIR, ENV_DIRS_BACKEND, ENV_DIR_SNAP, envPath,
        diagnosticMsgs, installPlan, missingMsg, failMsg, runMsg, wroteMsg,
        startMsg, completeMsg, hn, hy, hinst, g1, g2, hk]
    · rw [hws]
      intro fs0 p c hm
      refine fsApply_of_mem _ _ _ _ ?_ hm
      simp [expectedWrites, envPath, ENV_DIRS_BACKEND, ENV_DIR_SNAP]

/-- Witness for C7: the very first `.env` write raises. -/
theorem env_write_failure_uncaught_witness :
    (mainRun writeFailWorld).2 = .fault
    ∧ writesOf (mainRun writeFailWorld).1 = [] := by
  have h := env_write_failure_uncaught writeFailWorld ⟨0, by decide⟩ rfl rfl
    (fun _ _ => rfl)
    (fun m hm => absurd hm (by exact Nat.not_lt_zero m.1)) rfl
  exact ⟨h.1, by simpa using h.2.2.1⟩

/-- C8: `run_install` catches only the non-zero-exit failure; when the
spawned invocation fails at the OS level the exception is uncaught: the
step terminates the process as a fault and the per-install diagnostic
naming the command and directory is never printed. -/
theorem run_install_catches_only_exit_status (w : World) (c p : String)
    (h : w.installResult c p = .osError) :
    (run_install w c p).2 = some .fault
    ∧ .print (failMsg c p) ∉ (run_install w c p).1 := by
  refine ⟨by simp [run_install, h], ?_⟩
  simp [run_install, h, failMsg_ne_runMsg]

/-- Witness for C8 in a concrete world whose installs all fail to spawn. -/
theorem run_install_catches_only_exit_status_witness :
    (run_install osErrorWorld "npm" "./demo/bank-app/frontend").2
      = some .fault :=
  (run_install_catches_only_exit_status osErrorWorld "npm"
    "./demo/bank-app/frontend" rfl).1

/-- C9: the tool checks run npm first, then yarn, each aborting
immediately: with npm absent the whole observable run is the banner, the
single npm query and the npm error (yarn is never queried, even if it is
also missing), and with npm present but yarn absent the run is the banner,
both queries and the yarn error. -/
theorem npm_checked_first_abort_order (w : World) :
    (w.pathHas "npm" = false →
      mainRun w = ([.print startMsg, .checkTool "npm",
        .print (missingMsg "npm")], .exitCode 1))
    ∧ (w.pathHas "npm" = true → w.pathHas "yarn" = false →
      mainRun w = ([.print startMsg, .checkTool "npm", .checkTool "yarn",
        .print (missingMsg "yarn")], .exitCode 1)) := by
  constructor
  · intro hn
    simp [mainRun, check_command_exists, hn]
  · intro hn hy
    simp [mainRun, check_command_exists, hn, hy]

/-- Witness for C9: both tools missing; only the npm query happens. -/
theorem npm_checked_first_abort_order_witness :
    mainRun noToolWorld = ([.print startMsg, .checkTool "npm",
      .print (missingMsg "npm")], .exitCode 1) :=
  (npm_checked_first_abort_order noToolWorld).1 rfl

/-- C10: the snap `.env` is independent of the wallet private key: two
successful runs differing only in the entered wallet line produce the same
snap `.env` contents. -/
theorem snap_env_independent_of_wallet (w : World) (l1 l2 : String)
    (hn : w.pathHas "npm" = true) (hy : w.pathHas "yarn" = true)
    (hinst : ∀ c p, w.installResult c p = .ok)
    (hwr : ∀ p, w.writeOk p = true)
    (fs0 : String → Option String) :
    fsApply fs0 (writesOf (mainRun {w with walletLine := l1}).1)
        (envPath ENV_DIR_SNAP)
      = fsApply fs0 (writesOf (mainRun {w with walletLine := l2}).1)
          (envPath ENV_DIR_SNAP) := by
  rw [mainRun_success_writes {w with walletLine := l1} hn hy hinst hwr,
    mainRun_success_writes {w with walletLine := l2} hn hy hinst hwr]
  simp [fsApply, fsWrite, expectedWrites, envPath, ENV_DIRS_BACKEND,
    ENV_DIR_SNAP]

/-- Witness for C10 with two concrete wallet lines. -/
theorem snap_env_independent_of_wallet_witness :
    fsApply (fun _ => none)
        (writesOf (mainRun {okWorld with walletLine := "aaa"}).1)
        (envPath ENV_DIR_SNAP)
      = fsApply (fun _ => none)
          (writesOf (mainRun {okWorld with walletLine := "bbb"}).1)
          (envPath ENV_DIR_SNAP) :=
  snap_env_independent_of_wallet okWorld "aaa" "bbb" rfl rfl
    (fun _ _ => rfl) (fun _ => rfl) (fun _ => none)
